import Mathlib

/-!
Shallow embedding of the provider layer of the zen-mcp-server repository
(files `providers/openai_compatible.py`, `providers/openai.py`,
`utils/file_types.py`), together with theorems checking the repository's
natural-language specification against this embedding.

Python strings are modelled as Lean `String` (a list of characters);
Python floats that carry exact decimal configuration values (temperatures,
timeouts) are modelled as `Rat`; fallible Python code is modelled with
`Except String` where the error component is the exception's message.
-/

namespace ZenMCP

/-! ### Python string primitives

`str.lower` (restricted to ASCII, which is all the repository compares),
`in` (substring containment), `str.startswith`. -/

/-- Python `str.lower` on a single character (ASCII range, as used by the code). -/
def pyCharLower (c : Char) : Char :=
  if 65 ≤ c.toNat ∧ c.toNat ≤ 90 then Char.ofNat (c.toNat + 32) else c

/-- Python `str.lower` on a string. -/
def pyLower (s : String) : String :=
  ⟨s.data.map pyCharLower⟩

/-- `p.isPrefixOf l` for character lists, written out recursively. -/
def listStartsWith : List Char → List Char → Bool
  | [], _ => true
  | _ :: _, [] => false
  | p :: ps, c :: cs => p == c && listStartsWith ps cs

/-- Helper for Python's substring test `sub in s` (over the char list of `s`). -/
def containsSubAux (sub : List Char) : List Char → Bool
  | [] => sub.isEmpty
  | c :: cs => listStartsWith sub (c :: cs) || containsSubAux sub cs

/-- Python's substring test `sub in s`. -/
def containsSub (s sub : String) : Bool :=
  containsSubAux sub.data s.data

/-- Python `s.startswith(".")`. -/
def startsWithDot (s : String) : Bool :=
  match s.data with
  | [] => false
  | c :: _ => c == '.'

/-- Python `s.split(sep)` for a one-character separator, over char lists.
`[] ↦ [[]]`, matching Python's `"".split(sep) == [""]`. -/
def splitOnChar (sep : Char) : List Char → List (List Char)
  | [] => [[]]
  | c :: cs =>
    let r := splitOnChar sep cs
    if c == sep then [] :: r
    else
      match r with
      | [] => [[c]]
      | h :: t => (c :: h) :: t

/-- Python `s.split(sep)` for a one-character separator. -/
def pySplit (s : String) (sep : Char) : List String :=
  (splitOnChar sep s.data).map (fun l => ⟨l⟩)

/-- Python whitespace for `str.strip()` (ASCII part). -/
def isPyWhitespace (c : Char) : Bool :=
  c == ' ' || c == '\t' || c == '\n' || c == '\r' || c == '\x0b' || c == '\x0c'

/-- Python `str.strip()` with no arguments. -/
def pyStrip (s : String) : String :=
  ⟨((s.data.dropWhile isPyWhitespace).reverse.dropWhile isPyWhitespace).reverse⟩

/-! ### `utils/file_types.py`: extension tables -/

/-- `PROGRAMMING_LANGUAGES` from `utils/file_types.py`. -/
def PROGRAMMING_LANGUAGES : List String :=
  [".py", ".js", ".ts", ".jsx", ".tsx", ".java", ".cpp", ".c", ".h", ".hpp",
   ".cs", ".go", ".rs", ".rb", ".php", ".swift", ".kt", ".scala", ".r", ".m", ".mm"]

/-- `SCRIPTS` from `utils/file_types.py`. -/
def SCRIPTS : List String :=
  [".sql", ".sh", ".bash", ".zsh", ".fish", ".ps1", ".bat", ".cmd"]

/-- `CONFIGS` from `utils/file_types.py`. -/
def CONFIGS : List String :=
  [".yml", ".yaml", ".json", ".xml", ".toml", ".ini", ".cfg", ".conf",
   ".properties", ".env"]

/-- `DOCS` from `utils/file_types.py`. -/
def DOCS : List String :=
  [".txt", ".md", ".rst", ".tex"]

/-- `WEB` from `utils/file_types.py`. -/
def WEB : List String :=
  [".html", ".css", ".scss", ".sass", ".less"]

/-- `TEXT_DATA` from `utils/file_types.py`. -/
def TEXT_DATA : List String :=
  [".log", ".csv", ".tsv", ".gitignore", ".dockerfile", ".makefile",
   ".cmake", ".gradle", ".sbt", ".pom", ".lock"]

/-- `IMAGES` from `utils/file_types.py`. -/
def IMAGES : List String :=
  [".jpg", ".jpeg", ".png", ".gif", ".webp"]

/-- `BINARIES` from `utils/file_types.py`. -/
def BINARIES : List String :=
  [".exe", ".dll", ".so", ".dylib", ".bin", ".class"]

/-- `ARCHIVES` from `utils/file_types.py`. -/
def ARCHIVES : List String :=
  [".jar", ".war", ".ear", ".zip", ".tar", ".gz", ".7z", ".rar",
   ".deb", ".rpm", ".dmg", ".pkg"]

/-- `CODE_EXTENSIONS = PROGRAMMING_LANGUAGES | SCRIPTS | CONFIGS | DOCS | WEB`
(a Python set union; membership-equivalent list concatenation here). -/
def CODE_EXTENSIONS : List String :=
  PROGRAMMING_LANGUAGES ++ SCRIPTS ++ CONFIGS ++ DOCS ++ WEB

/-- `TEXT_EXTENSIONS = CODE_EXTENSIONS | TEXT_DATA`. -/
def TEXT_EXTENSIONS : List String :=
  CODE_EXTENSIONS ++ TEXT_DATA

/-- `BINARY_EXTENSIONS = BINARIES | ARCHIVES`. -/
def BINARY_EXTENSIONS : List String :=
  BINARIES ++ ARCHIVES

/-! ### `pathlib.Path(...).suffix` model

`Path(p).suffix` takes the last path component (splitting on `/`, dropping
empty and `.` components) and returns `name[i:]` for the last dot index `i`
when `0 < i < len(name) - 1`, else the empty string. -/

/-- The final component (`Path(p).name`) of a POSIX path. -/
def pathName (p : String) : String :=
  let parts := (pySplit p '/').filter (fun s => !s.data.isEmpty && s ≠ ".")
  parts.getLastD ""

/-- Index of the last occurrence of `c` in `l`, if any. -/
def lastIdxOf (l : List Char) (c : Char) : Option Nat :=
  match l with
  | [] => none
  | x :: xs =>
    match lastIdxOf xs c with
    | some j => some (j + 1)
    | none => if x == c then some 0 else none

/-- `Path(p).suffix`: the extension of the final component, including the dot. -/
def pathSuffix (p : String) : String :=
  let name := pathName p
  match lastIdxOf name.data '.' with
  | some i => if 0 < i ∧ i < name.data.length - 1 then ⟨name.data.drop i⟩ else ""
  | none => ""

/-- `is_code_file` from `utils/file_types.py`:
`Path(file_path).suffix.lower() in PROGRAMMING_LANGUAGES`. -/
def is_code_file (file_path : String) : Bool :=
  PROGRAMMING_LANGUAGES.contains (pyLower (pathSuffix file_path))

/-- `is_text_file` from `utils/file_types.py`:
`Path(file_path).suffix.lower() in TEXT_EXTENSIONS`. -/
def is_text_file (file_path : String) : Bool :=
  TEXT_EXTENSIONS.contains (pyLower (pathSuffix file_path))

/-- `is_binary_file` from `utils/file_types.py`:
`Path(file_path).suffix.lower() in BINARY_EXTENSIONS`. -/
def is_binary_file (file_path : String) : Bool :=
  BINARY_EXTENSIONS.contains (pyLower (pathSuffix file_path))

/-- `IMAGE_MIME_TYPES` from `utils/file_types.py`. -/
def IMAGE_MIME_TYPES : List (String × String) :=
  [(".jpg", "image/jpeg"), (".jpeg", "image/jpeg"), (".png", "image/png"),
   (".gif", "image/gif"), (".webp", "image/webp")]

/-- `get_image_mime_type` from `utils/file_types.py`: prepend a dot when the
extension lacks one, lowercase, then look up with default `image/jpeg`. -/
def get_image_mime_type (extension : String) : String :=
  match IMAGE_MIME_TYPES.lookup
      (pyLower (if startsWithDot extension then extension else "." ++ extension)) with
  | some m => m
  | none => "image/jpeg"

/-! ### CPython `urllib.parse` model (the parts the repository reads)

`urlsplit` keeps only `scheme` and `netloc` (the repository reads `scheme`,
`hostname` and `port`, all derived from these); it raises `ValueError` on an
unbalanced IPv6 bracket in the netloc. -/

/-- Characters CPython's `urlsplit` removes anywhere in the URL. -/
def isUnsafeUrlChar (c : Char) : Bool :=
  c == '\t' || c == '\r' || c == '\n'

/-- Characters allowed in a URL scheme. -/
def isSchemeChar (c : Char) : Bool :=
  c.isAlpha || c.isDigit || c == '+' || c == '-' || c == '.'

/-- Index of the first occurrence of `c` in `l`, if any. -/
def firstIdxOf (l : List Char) (c : Char) : Option Nat :=
  match l with
  | [] => none
  | x :: xs => if x == c then some 0 else (firstIdxOf xs c).map (· + 1)

structure PySplitUrl where
  scheme : String
  netloc : String
deriving Repr, DecidableEq

/-- CPython `urllib.parse.urlsplit`, restricted to the fields the repository
reads. -/
def urlsplit (url : String) : Except String PySplitUrl :=
  let l := url.data.filter (fun c => !isUnsafeUrlChar c)
  let schemeRest : String × List Char :=
    match firstIdxOf l ':' with
    | some i =>
      if 0 < i ∧ (l.headD ' ').isAlpha ∧ (l.take i).all isSchemeChar then
        (pyLower ⟨l.take i⟩, l.drop (i + 1))
      else ("", l)
    | none => ("", l)
  match schemeRest with
  | (scheme, rest) =>
    if rest.take 2 == ['/', '/'] then
      let netloc := (rest.drop 2).takeWhile (fun c => !(c == '/' || c == '?' || c == '#'))
      if (netloc.contains '[' && !netloc.contains ']') ||
          (netloc.contains ']' && !netloc.contains '[') then
        Except.error "Invalid IPv6 URL"
      else
        Except.ok ⟨scheme, ⟨netloc⟩⟩
    else
      Except.ok ⟨scheme, ""⟩

/-- The part of `l` after the last occurrence of `c` (all of `l` if absent). -/
def afterLast (l : List Char) (c : Char) : List Char :=
  match lastIdxOf l c with
  | some i => l.drop (i + 1)
  | none => l

/-- CPython `SplitResult._hostinfo`: hostname text and raw port text. -/
def hostinfo (netloc : List Char) : List Char × Option (List Char) :=
  let hi := afterLast netloc '@'
  match firstIdxOf hi '[' with
  | some i =>
    let bracketed := hi.drop (i + 1)
    let host := bracketed.takeWhile (fun c => !(c == ']'))
    let rest := bracketed.drop (host.length + 1)
    let port :=
      match firstIdxOf rest ':' with
      | some j => rest.drop (j + 1)
      | none => []
    (host, if port.isEmpty then none else some port)
  | none =>
    match firstIdxOf hi ':' with
    | some j =>
      let port := hi.drop (j + 1)
      (hi.take j, if port.isEmpty then none else some port)
    | none => (hi, none)

/-- CPython `SplitResult.hostname`: lowercased, `None` when empty. -/
def pyHostname (u : PySplitUrl) : Option String :=
  let h := (hostinfo u.netloc.data).1
  if h.isEmpty then none else some (pyLower ⟨h⟩)

/-- `int(s, 10)` restricted to plain digit strings. -/
def decDigits? (l : List Char) : Option Nat :=
  if l.isEmpty || !l.all Char.isDigit then none
  else some (l.foldl (fun acc c => acc * 10 + (c.toNat - 48)) 0)

/-- CPython `SplitResult.port`: `None` when absent, `ValueError` when the raw
text is not an integer or is outside 0–65535. -/
def pyPort (u : PySplitUrl) : Except String (Option Nat) :=
  match (hostinfo u.netloc.data).2 with
  | none => Except.ok none
  | some p =>
    match decDigits? p with
    | none => Except.error "Port could not be cast to integer value"
    | some n =>
      if n ≤ 65535 then Except.ok (some n)
      else Except.error "Port out of range 0-65535"

/-! ### CPython `ipaddress` model (`ip_address`, `is_private`, `is_loopback`) -/

/-- IPv4/IPv6 address values as produced by `ipaddress.ip_address`. -/
inductive IpAddr
  | v4 (val : Nat)
  | v6 (val : Nat)
deriving Repr, DecidableEq

/-- CPython `IPv4Address._parse_octet`: 1–3 ASCII digits, no leading zero
unless the octet is exactly `0`, value at most 255. -/
def parseOctet (l : List Char) : Option Nat :=
  if l.isEmpty then none
  else if !l.all Char.isDigit then none
  else if l.length > 3 then none
  else if l.headD '0' == '0' && l.length != 1 then none
  else
    match decDigits? l with
    | some n => if n ≤ 255 then some n else none
    | none => none

/-- CPython `IPv4Address._ip_int_from_string`: exactly four octets. -/
def parseIPv4 (l : List Char) : Option Nat :=
  match (splitOnChar '.' l).mapM parseOctet with
  | some [a, b, c, d] => some (((a * 256 + b) * 256 + c) * 256 + d)
  | _ => none

def isHexDigitChar (c : Char) : Bool :=
  c.isDigit || ('a' ≤ c && c ≤ 'f') || ('A' ≤ c && c ≤ 'F')

def hexDigitVal (c : Char) : Nat :=
  if c.isDigit then c.toNat - 48
  else if 'a' ≤ c && c ≤ 'f' then c.toNat - 87
  else c.toNat - 55

/-- CPython `IPv6Address._parse_hextet`: 1–4 hex digits. -/
def parseHextet (l : List Char) : Option Nat :=
  if l.isEmpty || l.length > 4 || !l.all isHexDigitChar then none
  else some (l.foldl (fun acc c => acc * 16 + hexDigitVal c) 0)

/-- Lowercase hex digits of `n` (CPython `'%x' % n`). -/
def hexChars (n : Nat) : List Char := Nat.toDigits 16 n

/-- Fold a run of hextet texts into one integer, 16 bits per hextet. -/
def combineHextets (parts : List (List Char)) : Option Nat :=
  parts.foldl
    (fun acc p =>
      match acc, parseHextet p with
      | some a, some v => some (a * 65536 + v)
      | _, _ => none)
    (some 0)

/-- The disassembly step of `IPv6Address._ip_int_from_string`: locate the one
permitted `::`, check the leading/trailing-colon rules, and combine the
hextets around the skipped zero run. -/
def assembleV6 (parts : List (List Char)) : Option Nat :=
  let n := parts.length
  let inner := (List.range n).filter
    (fun i => decide (0 < i) && decide (i + 1 < n) && (parts.getD i ['x']).isEmpty)
  match inner with
  | [] =>
    if n != 8 then none
    else if (parts.headD ['x']).isEmpty || (parts.getLastD ['x']).isEmpty then none
    else combineHextets parts
  | [i] =>
    let headEmpty := (parts.headD ['x']).isEmpty
    let lastEmpty := (parts.getLastD ['x']).isEmpty
    if headEmpty && i != 1 then none
    else if lastEmpty && i + 2 != n then none
    else
      let hi := if headEmpty then i - 1 else i
      let lo := if lastEmpty then n - i - 2 else n - i - 1
      if hi + lo > 7 then none
      else
        match combineHextets (parts.take hi), combineHextets (parts.drop (n - lo)) with
        | some a, some b => some (a * 2 ^ (16 * (8 - hi)) + b)
        | _, _ => none
  | _ => none

/-- CPython `IPv6Address._ip_int_from_string`, including the optional
`%scope` suffix and the trailing-IPv4 form. -/
def parseIPv6 (l0 : List Char) : Option Nat :=
  let scopeStripped : Option (List Char) :=
    match firstIdxOf l0 '%' with
    | none => some l0
    | some i => if (l0.drop (i + 1)).isEmpty then none else some (l0.take i)
  match scopeStripped with
  | none => none
  | some l =>
    if l.isEmpty then none
    else
      let parts0 := splitOnChar ':' l
      if parts0.length < 3 then none
      else
        let withV4 : Option (List (List Char)) :=
          match parts0.getLast? with
          | none => none
          | some lastp =>
            if lastp.contains '.' then
              match parseIPv4 lastp with
              | none => none
              | some v4 =>
                some (parts0.dropLast ++ [hexChars (v4 / 65536), hexChars (v4 % 65536)])
            else some parts0
        match withV4 with
        | none => none
        | some parts =>
          if parts.length > 9 then none
          else assembleV6 parts

/-- CPython `ipaddress.ip_address`: IPv4 first, then IPv6; `none` models the
`ValueError` when the text is neither. -/
def ip_address (s : String) : Option IpAddr :=
  match parseIPv4 s.data with
  | some n => some (IpAddr.v4 n)
  | none =>
    match parseIPv6 s.data with
    | some n => some (IpAddr.v6 n)
    | none => none

/-- CPython `IPv4Address.is_private`: the standard private-network list, a
strict superset of the RFC1918 blocks. -/
def isPrivateV4 (n : Nat) : Bool :=
  n / 2 ^ 24 == 0 ||
  n / 2 ^ 24 == 10 ||
  n / 2 ^ 24 == 127 ||
  n / 2 ^ 16 == 43518 ||
  n / 2 ^ 20 == 2753 ||
  n / 2 ^ 3 == 402653184 ||
  n / 2 ^ 1 == 1610612821 ||
  n / 2 ^ 8 == 12582914 ||
  n / 2 ^ 16 == 49320 ||
  n / 2 ^ 17 == 25353 ||
  n / 2 ^ 8 == 12989284 ||
  n / 2 ^ 8 == 13303921 ||
  n / 2 ^ 28 == 15 ||
  n == 4294967295

/-- CPython `IPv4Address.is_loopback`: 127.0.0.0/8. -/
def isLoopbackV4 (n : Nat) : Bool := n / 2 ^ 24 == 127

/-- CPython `IPv6Address.is_private`. -/
def isPrivateV6 (n : Nat) : Bool :=
  n == 1 ||
  n == 0 ||
  n / 2 ^ 32 == 65535 ||
  n / 2 ^ 64 == 72057594037927936 ||
  n / 2 ^ 105 == 1048704 ||
  n / 2 ^ 96 == 536939960 ||
  n / 2 ^ 121 == 126 ||
  n / 2 ^ 118 == 1018

/-- CPython `IPv6Address.is_loopback`: `::1`. -/
def isLoopbackV6 (n : Nat) : Bool := n == 1

def ipPrivateOrLoopback : IpAddr → Bool
  | IpAddr.v4 n => isPrivateV4 n || isLoopbackV4 n
  | IpAddr.v6 n => isPrivateV6 n || isLoopbackV6 n

/-- The RFC1918 private IPv4 blocks (`10.0.0.0/8`, `172.16.0.0/12`,
`192.168.0.0/16`). This follows the spec's words ("RFC1918"), written for
comparison with the code's broader `is_private`. -/
def rfc1918_v4 (n : Nat) : Bool :=
  n / 2 ^ 24 == 10 || n / 2 ^ 20 == 2753 || n / 2 ^ 16 == 49320

/-! ### `providers/openai_compatible.py`: locality, URL validation, timeouts -/

/-- The host test inside `_is_localhost_url` (source lines 148–167), over the
parsed hostname. -/
def is_localhost_hostname (hostname : Option String) : Bool :=
  match hostname with
  | none => false
  | some h =>
    if h == "localhost" || h == "127.0.0.1" || h == "::1" then true
    else if containsSub h "docker.internal" || containsSub h "host.docker.internal" then true
    else
      match ip_address h with
      | some ip => ipPrivateOrLoopback ip
      | none => false

/-- `_is_localhost_url` from `providers/openai_compatible.py`; any exception
(e.g. from `urlparse`) yields `False`. -/
def is_localhost_url (base_url : Option String) : Bool :=
  match base_url with
  | none => false
  | some u =>
    match urlsplit u with
    | Except.error _ => false
    | Except.ok p => is_localhost_hostname (pyHostname p)

/-- `_validate_base_url` from `providers/openai_compatible.py` (only called
with a non-empty base URL): scheme must be http/https, a hostname must be
present, an explicit port must be in range; `ValueError` from `urlparse` or
the `port` property propagates. -/
def validate_base_url (base_url : String) : Except String Unit :=
  match urlsplit base_url with
  | Except.error e => Except.error e
  | Except.ok p =>
    if !(p.scheme == "http" || p.scheme == "https") then
      Except.error ("Invalid URL scheme: " ++ p.scheme ++ ". Only http/https allowed.")
    else
      match pyHostname p with
      | none => Except.error "URL must include a hostname"
      | some _ =>
        match pyPort p with
        | Except.error e => Except.error e
        | Except.ok none => Except.ok ()
        | Except.ok (some port) =>
          if port < 1 || port > 65535 then
            Except.error ("Invalid port number: " ++ toString port
              ++ ". Must be between 1 and 65535.")
          else Except.ok ()

/-- The `__init__` validation step (source lines 51–53): when a base URL is
configured it is validated at construction, before any client is built. -/
def provider_init_validation (base_url : Option String) : Except String Unit :=
  match base_url with
  | none => Except.ok ()
  | some u => validate_base_url u

/-- Surface accessor: the scheme of a base URL (empty when `urlparse` itself
rejects the URL). -/
def url_scheme (url : String) : String :=
  match urlsplit url with
  | Except.ok p => p.scheme
  | Except.error _ => ""

/-- Surface accessor: the hostname of a base URL (`none` when absent or when
`urlparse` itself rejects the URL). -/
def url_hostname (url : String) : Option String :=
  match urlsplit url with
  | Except.ok p => pyHostname p
  | Except.error _ => none

/-- Surface accessor: the explicit port of the URL is absent or denotes an
integer in 1–65535 (`false` when `urlparse` itself rejects the URL). -/
def url_port_acceptable (url : String) : Bool :=
  match urlsplit url with
  | Except.error _ => false
  | Except.ok p =>
    match pyPort p with
    | Except.ok none => true
    | Except.ok (some n) => decide (1 ≤ n) && decide (n ≤ 65535)
    | Except.error _ => false

structure TimeoutConfig where
  connect : Rat
  read : Rat
  write : Rat
  pool : Rat
deriving Repr, DecidableEq

/-- `_configure_timeouts` from `providers/openai_compatible.py`: tier
defaults chosen from endpoint locality; each field is then taken from the
kwarg if given, else from the `CUSTOM_*_TIMEOUT` environment value if set,
else from the tier default. -/
def configure_timeouts (base_url : Option String)
    (kwConnect kwRead kwWrite kwPool : Option Rat)
    (envConnect envRead envWrite envPool : Option Rat) : TimeoutConfig :=
  let defaults : Rat × Rat × Rat × Rat :=
    match base_url with
    | none => (30, 600, 600, 600)
    | some _ =>
      if is_localhost_url base_url then (60, 1800, 1800, 1800)
      else (45, 900, 900, 900)
  { connect := kwConnect.getD (envConnect.getD defaults.1)
    read := kwRead.getD (envRead.getD defaults.2.1)
    write := kwWrite.getD (envWrite.getD defaults.2.2.1)
    pool := kwPool.getD (envPool.getD defaults.2.2.2) }

/-- `_parse_allowed_models` from `providers/openai_compatible.py`, as a
function of the `<PROVIDER>_ALLOWED_MODELS` environment string; the Python
set of stripped, lowercased entries is modelled as the list of them. -/
def parse_allowed_models (models_str : String) : Option (List String) :=
  if models_str.data.isEmpty then none
  else
    let models := ((pySplit models_str ',').filter
      (fun m => !(pyStrip m).data.isEmpty)).map (fun m => pyLower (pyStrip m))
    if models.isEmpty then none else some models

/-! ### `providers/openai.py`: static support table, capabilities -/

/-- Provider kinds (`ProviderType` of `providers/base.py`, not under src/;
the values the sources reference). -/
inductive ProviderType
  | google
  | openai
  | openrouter
  | custom
deriving Repr, DecidableEq

/-- Modelled from the spec: the `FixedTemperatureConstraint` /
`RangeTemperatureConstraint` variants of `providers/base.py` are not under
src/; per the spec the constraint is one of Fixed(value) and
Range(min, max, default). -/
inductive TemperatureConstraint
  | fixed (value : Rat)
  | range (low : Rat) (high : Rat) (dflt : Rat)
deriving Repr, DecidableEq

/-- `ModelCapabilities` with the fields constructed in `providers/openai.py`. -/
structure ModelCapabilities where
  provider : ProviderType
  model_name : String
  friendly_name : String
  context_window : Nat
  supports_extended_thinking : Bool
  supports_system_prompts : Bool
  supports_streaming : Bool
  supports_function_calling : Bool
  temperature_constraint : TemperatureConstraint
deriving Repr, DecidableEq

/-- `SUPPORTED_MODELS` of `OpenAIModelProvider`: name, context window,
`supports_extended_thinking`. -/
def OPENAI_SUPPORTED_MODELS : List (String × Nat × Bool) :=
  [("o3", 200000, false), ("o4-mini", 200000, false)]

/-- `OpenAIModelProvider.validate_model_name`: membership in the static
support table only. -/
def openai_validate_model_name (model_name : String) : Bool :=
  (OPENAI_SUPPORTED_MODELS.map Prod.fst).contains model_name

/-- `OpenAIModelProvider.get_capabilities`. -/
def openai_get_capabilities (model_name : String) : Except String ModelCapabilities :=
  match OPENAI_SUPPORTED_MODELS.lookup model_name with
  | none => Except.error ("Unsupported OpenAI model: " ++ model_name)
  | some config =>
    Except.ok
      { provider := ProviderType.openai
        model_name := model_name
        friendly_name := "OpenAI"
        context_window := config.1
        supports_extended_thinking := config.2
        supports_system_prompts := true
        supports_streaming := true
        supports_function_calling := true
        temperature_constraint :=
          if model_name == "o3" || model_name == "o4-mini" then
            TemperatureConstraint.fixed 1
          else
            TemperatureConstraint.range 0 2 (7 / 10) }

/-! ### Parameter validation -/

/-- Modelled from the spec: `ModelProvider.validate_parameters` of
`providers/base.py` is not under src/. Per the spec it checks the temperature
against the `temperature_constraint` — exact match for Fixed, inclusive range
for Range — and fails with `InvalidParameterError` naming the offending value
and the accepted bound/value. -/
def base_validate_parameters (caps : ModelCapabilities) (temperature : Rat) :
    Except String Unit :=
  match caps.temperature_constraint with
  | TemperatureConstraint.fixed v =>
    if temperature == v then Except.ok ()
    else
      Except.error ("InvalidParameterError: temperature " ++ toString temperature
        ++ " is not the supported value " ++ toString v)
  | TemperatureConstraint.range low high _ =>
    if low ≤ temperature ∧ temperature ≤ high then Except.ok ()
    else
      Except.error ("InvalidParameterError: temperature " ++ toString temperature
        ++ " is outside the supported range " ++ toString low ++ " to " ++ toString high)

/-- What a `validate_parameters` call does observably: the exception it lets
propagate (if any) and the warning it logs (if any). -/
structure ValidationOutcome where
  raised : Option String
  warning : Option String
deriving Repr, DecidableEq

/-- `OpenAICompatibleProvider.validate_parameters` (source lines 571–596):
capability lookup plus the base check inside `try`; any exception is caught
and logged as a warning, and nothing propagates to the caller. -/
def compat_validate_parameters (get_caps : String → Except String ModelCapabilities)
    (model_name : String) (temperature : Rat) : ValidationOutcome :=
  match get_caps model_name with
  | Except.error e =>
    { raised := none
      warning := some ("Parameter validation limited for " ++ model_name ++ ": " ++ e) }
  | Except.ok caps =>
    match base_validate_parameters caps temperature with
    | Except.ok _ => { raised := none, warning := none }
    | Except.error e =>
      { raised := none
        warning := some ("Parameter validation limited for " ++ model_name ++ ": " ++ e) }

/-- `validate_parameters` as inherited (unoverridden) by the official
`OpenAIModelProvider`. -/
def openai_validate_parameters (model_name : String) (temperature : Rat) :
    ValidationOutcome :=
  compat_validate_parameters openai_get_capabilities model_name temperature

/-! ### Token counting -/

/-- `count_tokens` from `providers/openai_compatible.py`. The remote tier
exists only when the concrete provider defines `count_tokens_remote`; the
tiktoken tier bundles import, model lookup and encoding as one fallible
step. Each tier's failure is caught and falls through; the result type
records whether any exception escapes. -/
def count_tokens (remote : Option (String → String → Except String Nat))
    (tiktokenTier : String → String → Except String Nat)
    (text : String) (model_name : String) : Except String Nat :=
  match remote with
  | some f =>
    match f text model_name with
    | Except.ok n => Except.ok n
    | Except.error _ =>
      match tiktokenTier text model_name with
      | Except.ok n => Except.ok n
      | Except.error _ => Except.ok (text.length / 4)
  | none =>
    match tiktokenTier text model_name with
    | Except.ok n => Except.ok n
    | Except.error _ => Except.ok (text.length / 4)

/-! ### Retry loops and endpoint dispatch of `generate_content` -/

/-- The retryable-error keywords (source lines 486–500). -/
def RETRYABLE_TERMS : List String :=
  ["timeout", "connection", "network", "temporary", "unavailable", "retry",
   "429", "500", "502", "503", "504"]

/-- An error is retryable when its lowercased text contains one of the terms. -/
def is_retryable_error (msg : String) : Bool :=
  RETRYABLE_TERMS.any (fun term => containsSub (pyLower msg) term)

def MAX_RETRIES : Nat := 4

def RETRY_DELAYS : List Nat := [1, 3, 5, 8]

/-- Result of one `generate_content` execution: the returned value or raised
error, the sleeps performed between attempts, and the number of transport
calls made. -/
structure GenOutcome (α : Type) where
  result : Except String α
  sleeps : List Nat
  calls : Nat
deriving Repr

/-- The chat-completions retry loop (source lines 452–521). `call i` is the
transport outcome of attempt `i`; `wrap` builds the raised message from the
last exception; the fuel argument counts the remaining attempts. -/
def chat_loop {α : Type} (call : Nat → Except String α) (wrap : String → String) :
    Nat → Nat → GenOutcome α
  | 0, _ => ⟨Except.error (wrap ""), [], 0⟩
  | fuel + 1, i =>
    match call i with
    | Except.ok v => ⟨Except.ok v, [], 1⟩
    | Except.error e =>
      if i == MAX_RETRIES - 1 || !is_retryable_error e then
        ⟨Except.error (wrap e), [], 1⟩
      else
        let rest := chat_loop call wrap fuel (i + 1)
        ⟨rest.result, RETRY_DELAYS.getD i 0 :: rest.sleeps, rest.calls + 1⟩

/-- The raised message of the chat path (source lines 517–519). -/
def chat_wrap (friendly model_name e : String) : String :=
  friendly ++ " API error for model " ++ model_name ++ " after "
    ++ toString MAX_RETRIES ++ " attempts: " ++ e

/-- The chat-completions path of `generate_content` after validation. -/
def chat_generate {α : Type} (friendly model_name : String)
    (call : Nat → Except String α) : GenOutcome α :=
  chat_loop call (chat_wrap friendly model_name) MAX_RETRIES 0

/-- The raised message of the responses path (source lines 354–357). -/
def resp_wrap (e : String) : String :=
  "o3-pro responses endpoint error after " ++ toString MAX_RETRIES ++ " attempts: " ++ e

/-- The retry loop of `_generate_with_responses_endpoint` (source lines
275–357): sleep and retry only when the error is retryable and attempts
remain, otherwise break and raise the wrapped error. -/
def resp_loop {α : Type} (call : Nat → Except String α) : Nat → Nat → GenOutcome α
  | 0, _ => ⟨Except.error (resp_wrap ""), [], 0⟩
  | fuel + 1, i =>
    match call i with
    | Except.ok v => ⟨Except.ok v, [], 1⟩
    | Except.error e =>
      if is_retryable_error e && decide (i < MAX_RETRIES - 1) then
        let rest := resp_loop call fuel (i + 1)
        ⟨rest.result, RETRY_DELAYS.getD i 0 :: rest.sleeps, rest.calls + 1⟩
      else
        ⟨Except.error (resp_wrap e), [], 1⟩

def resp_generate {α : Type} (call : Nat → Except String α) : GenOutcome α :=
  resp_loop call MAX_RETRIES 0

/-- A chat message (`{"role": ..., "content": ...}`). -/
structure ChatMessage where
  role : String
  content : String
deriving Repr, DecidableEq

/-- One entry of the `input` array of the responses endpoint: a role and a
single typed text part (`input_text` / `output_text`). -/
structure RespInputMessage where
  role : String
  part_type : String
  text : String
deriving Repr, DecidableEq

/-- The message conversion of `_generate_with_responses_endpoint` (source
lines 236–251): system messages become user messages prefixed `System: `,
user and assistant roles map through, anything else is dropped. -/
def convert_input_messages : List ChatMessage → List RespInputMessage
  | [] => []
  | m :: rest =>
    let tail := convert_input_messages rest
    if m.role == "system" then
      ⟨"user", "input_text", "System: " ++ m.content⟩ :: tail
    else if m.role == "user" then
      ⟨"user", "input_text", m.content⟩ :: tail
    else if m.role == "assistant" then
      ⟨"assistant", "output_text", m.content⟩ :: tail
    else tail

/-- Which protocol a `generate_content` call uses. -/
inductive Protocol
  | chat
  | responses
deriving Repr, DecidableEq

def O3_PRO_MODEL : String := "o3-pro-2025-06-10"

/-- The model-name check at the top of `generate_content` (source lines
382–384): reject when `validate_model_name` fails, naming the configured
allow-list in the message. -/
def generate_content_model_check (validate_model_name : String → Bool)
    (allowed_models : Option (List String)) (model_name : String) : Except String Unit :=
  if !validate_model_name model_name then
    Except.error ("Model '" ++ model_name ++ "' not in allowed models list. Allowed models: "
      ++ toString allowed_models)
  else Except.ok ()

/-- The endpoint dispatch of `generate_content` (source lines 436–450): the
resolved model name `o3-pro-2025-06-10` is hard-routed to the responses
endpoint and returns from there; every other model runs the chat loop. -/
def generate_content_dispatch {α : Type} (resolve : String → String)
    (friendly model_name : String)
    (resp_call chat_call : Nat → Except String α) : Protocol × GenOutcome α :=
  if resolve model_name == O3_PRO_MODEL then
    (Protocol.responses, resp_generate resp_call)
  else
    (Protocol.chat, chat_generate friendly model_name chat_call)

/-! ### Lemmas about the Python string primitives -/

theorem char_toNat_ofNat (n : Nat) (h : n < 55296) : (Char.ofNat n).toNat = n := by
  unfold Char.ofNat
  rw [dif_pos (Or.inl h)]
  rfl

theorem pyCharLower_toNat_of_upper (c : Char) (h : 65 ≤ c.toNat ∧ c.toNat ≤ 90) :
    (pyCharLower c).toNat = c.toNat + 32 := by
  unfold pyCharLower
  rw [if_pos h]
  exact char_toNat_ofNat _ (by omega)

theorem pyCharLower_fix (c : Char) (h : ¬(65 ≤ c.toNat ∧ c.toNat ≤ 90)) :
    pyCharLower c = c := by
  unfold pyCharLower
  rw [if_neg h]

theorem pyCharLower_idem (c : Char) : pyCharLower (pyCharLower c) = pyCharLower c := by
  by_cases h : 65 ≤ c.toNat ∧ c.toNat ≤ 90
  · have h2 : (pyCharLower c).toNat = c.toNat + 32 := pyCharLower_toNat_of_upper c h
    exact pyCharLower_fix _ (by rw [h2]; omega)
  · rw [pyCharLower_fix c h]
    exact pyCharLower_fix c h

theorem pyCharLower_eq_dot_iff (c : Char) : pyCharLower c = '.' ↔ c = '.' := by
  constructor
  · intro h
    by_cases hr : 65 ≤ c.toNat ∧ c.toNat ≤ 90
    · exfalso
      have h2 : (pyCharLower c).toNat = c.toNat + 32 := pyCharLower_toNat_of_upper c hr
      rw [h] at h2
      rw [show ('.' : Char).toNat = 46 from rfl] at h2
      omega
    · unfold pyCharLower at h
      rwa [if_neg hr] at h
  · intro h
    subst h
    rfl

theorem pyLower_data (s : String) : (pyLower s).data = s.data.map pyCharLower := rfl

theorem pyLower_append (a b : String) : pyLower (a ++ b) = pyLower a ++ pyLower b := by
  apply String.ext
  simp [pyLower_data, String.data_append]

theorem pyLower_idem (s : String) : pyLower (pyLower s) = pyLower s := by
  apply String.ext
  simp only [pyLower_data, List.map_map]
  exact List.map_congr_left (fun c _ => pyCharLower_idem c)

theorem startsWithDot_pyLower (s : String) : startsWithDot (pyLower s) = startsWithDot s := by
  rcases s with ⟨data⟩
  cases data with
  | nil => rfl
  | cons c cs =>
    show (pyCharLower c == '.') = (c == '.')
    by_cases hc : c = '.'
    · subst hc; rfl
    · have : pyCharLower c ≠ '.' := fun h => hc ((pyCharLower_eq_dot_iff c).mp h)
      simp [beq_iff_eq, hc, this]

theorem startsWithDot_dot_append (s : String) : startsWithDot ("." ++ s) = true := by
  rcases s with ⟨data⟩
  rfl

/-! ### Claim theorems for `utils/file_types.py` -/

theorem text_binary_disjoint_lists : TEXT_EXTENSIONS ∩ BINARY_EXTENSIONS = [] := by decide

/-- C9: for every file path, `is_code_file` implies `is_text_file` (the
programming-language extension set is contained in the text extension set),
and no path is both a text file and a binary file (the text and binary
extension sets are disjoint). -/
theorem C9_code_subset_text_and_text_binary_disjoint (p : String) :
    (is_code_file p = true → is_text_file p = true) ∧
    ¬(is_text_file p = true ∧ is_binary_file p = true) := by
  constructor
  · intro h
    have hmem : pyLower (pathSuffix p) ∈ PROGRAMMING_LANGUAGES := by
      simpa [is_code_file, List.contains, List.elem_iff] using h
    have : pyLower (pathSuffix p) ∈ TEXT_EXTENSIONS := by
      unfold TEXT_EXTENSIONS CODE_EXTENSIONS
      exact List.mem_append_left _ (List.mem_append_left _ (List.mem_append_left _
        (List.mem_append_left _ (List.mem_append_left _ hmem))))
    simpa [is_text_file, List.contains, List.elem_iff] using this
  · rintro ⟨h1, h2⟩
    have m1 : pyLower (pathSuffix p) ∈ TEXT_EXTENSIONS := by
      simpa [is_text_file, List.contains, List.elem_iff] using h1
    have m2 : pyLower (pathSuffix p) ∈ BINARY_EXTENSIONS := by
      simpa [is_binary_file, List.contains, List.elem_iff] using h2
    have : pyLower (pathSuffix p) ∈ TEXT_EXTENSIONS ∩ BINARY_EXTENSIONS :=
      List.mem_inter_iff.mpr ⟨m1, m2⟩
    rw [text_binary_disjoint_lists] at this
    exact List.not_mem_nil _ this

theorem C9_witness : is_text_file "providers/openai.py" = true :=
  (C9_code_subset_text_and_text_binary_disjoint "providers/openai.py").1 (by decide)

/-- C10: `get_image_mime_type` is total, returns the mapped MIME type for the
five image extensions and `image/jpeg` for any extension whose normalized
form is not in the table, and is invariant under prepending the missing
leading dot and under lowercasing the argument. -/
theorem C10_get_image_mime_type_total_invariant (e : String) :
    get_image_mime_type ".jpg" = "image/jpeg" ∧
    get_image_mime_type ".jpeg" = "image/jpeg" ∧
    get_image_mime_type ".png" = "image/png" ∧
    get_image_mime_type ".gif" = "image/gif" ∧
    get_image_mime_type ".webp" = "image/webp" ∧
    (IMAGE_MIME_TYPES.lookup (pyLower (if startsWithDot e then e else "." ++ e)) = none →
      get_image_mime_type e = "image/jpeg") ∧
    (startsWithDot e = false → get_image_mime_type e = get_image_mime_type ("." ++ e)) ∧
    get_image_mime_type e = get_image_mime_type (pyLower e) := by
  refine ⟨rfl, rfl, rfl, rfl, rfl, ?_, ?_, ?_⟩
  · intro h
    unfold get_image_mime_type
    rw [h]
  · intro h
    simp [get_image_mime_type, h, startsWithDot_dot_append]
  · by_cases h : startsWithDot e = true
    · simp [get_image_mime_type, h, startsWithDot_pyLower, pyLower_idem]
    · have h' : startsWithDot e = false := by simpa using h
      simp [get_image_mime_type, h', startsWithDot_pyLower, pyLower_append, pyLower_idem]

theorem C10_witness : get_image_mime_type "png" = get_image_mime_type ".png" :=
  (C10_get_image_mime_type_total_invariant "png").2.2.2.2.2.2.1 (by rfl)

/-! ### Lemmas about the retry loops -/

theorem chat_loop_calls_pos {α : Type} (call : Nat → Except String α)
    (wrap : String → String) (fuel i : Nat) (h : 1 ≤ fuel) :
    1 ≤ (chat_loop call wrap fuel i).calls := by
  match fuel with
  | 0 => omega
  | fuel + 1 =>
    simp only [chat_loop]
    cases hc : call i with
    | ok v => simp
    | error e =>
      by_cases hb : (i == MAX_RETRIES - 1 || !is_retryable_error e) = true
      · simp [hb]
      · simp [hb]

theorem chat_loop_calls_le {α : Type} (call : Nat → Except String α)
    (wrap : String → String) :
    ∀ fuel i, (chat_loop call wrap fuel i).calls ≤ fuel := by
  intro fuel
  induction fuel with
  | zero => intro i; simp [chat_loop]
  | succ fuel ih =>
    intro i
    simp only [chat_loop]
    cases hc : call i with
    | ok v => simp
    | error e =>
      by_cases hb : (i == MAX_RETRIES - 1 || !is_retryable_error e) = true
      · simp [hb]
      · simp only [hb, if_false, Bool.false_eq_true]
        have := ih (i + 1)
        omega

theorem chat_loop_sleeps {α : Type} (call : Nat → Except String α)
    (wrap : String → String) :
    ∀ fuel i, i + fuel = MAX_RETRIES → 1 ≤ fuel →
      (chat_loop call wrap fuel i).sleeps =
        (List.range ((chat_loop call wrap fuel i).calls - 1)).map
          (fun j => RETRY_DELAYS.getD (i + j) 0) := by
  intro fuel
  induction fuel with
  | zero => intro i hinv h1; omega
  | succ fuel ih =>
    intro i hinv h1
    simp only [chat_loop]
    cases hc : call i with
    | ok v => simp
    | error e =>
      by_cases hb : (i == MAX_RETRIES - 1 || !is_retryable_error e) = true
      · simp [hb]
      · have hne : ¬(i = MAX_RETRIES - 1) := by
          intro hcontra
          simp [hcontra] at hb
        have hfuel : 1 ≤ fuel := by
          simp only [MAX_RETRIES] at hinv hne
          omega
        have hinv' : (i + 1) + fuel = MAX_RETRIES := by omega
        have hpos := chat_loop_calls_pos call wrap fuel (i + 1) hfuel
        simp only [hb, if_false, Bool.false_eq_true]
        have hr := ih (i + 1) hinv' hfuel
        set rest := chat_loop call wrap fuel (i + 1) with hrest
        simp only [Nat.add_sub_cancel]
        obtain ⟨c, hcval⟩ : ∃ c, rest.calls = c + 1 := ⟨rest.calls - 1, by omega⟩
        rw [hcval, List.range_succ_eq_map]
        simp only [List.map_cons, Nat.add_zero, List.map_map]
        rw [hr, hcval]
        simp only [Nat.add_sub_cancel]
        congr 1
        apply List.map_congr_left
        intro j _
        simp only [Function.comp]
        congr 1
        omega

theorem chat_loop_retried_retryable {α : Type} (call : Nat → Except String α)
    (wrap : String → String) :
    ∀ fuel i j, j + 1 < (chat_loop call wrap fuel i).calls →
      ∃ e, call (i + j) = Except.error e ∧ is_retryable_error e = true := by
  intro fuel
  induction fuel with
  | zero => intro i j hj; simp [chat_loop] at hj
  | succ fuel ih =>
    intro i j hj
    simp only [chat_loop] at hj
    cases hc : call i with
    | ok v => rw [hc] at hj; simp at hj
    | error e =>
      rw [hc] at hj
      by_cases hb : (i == MAX_RETRIES - 1 || !is_retryable_error e) = true
      · simp [hb] at hj
      · simp only [hb, if_false, Bool.false_eq_true] at hj
        have hretry : is_retryable_error e = true := by
          have hb' : (i == MAX_RETRIES - 1 || !is_retryable_error e) = false :=
            Bool.not_eq_true _ ▸ (by simpa using hb)
          rcases Bool.or_eq_false_iff.mp hb' with ⟨h1, h2⟩
          simpa using h2
        match j with
        | 0 => exact ⟨e, by simpa using hc, hretry⟩
        | j + 1 =>
          have := ih (i + 1) j (by simpa using Nat.lt_of_succ_lt_succ hj)
          rcases this with ⟨e2, he2, hr2⟩
          exact ⟨e2, by rw [show i + (j + 1) = (i + 1) + j by omega]; exact he2, hr2⟩

theorem chat_loop_error_wrap {α : Type} (call : Nat → Except String α)
    (wrap : String → String) :
    ∀ fuel i m, i + fuel = MAX_RETRIES → 1 ≤ fuel →
      (chat_loop call wrap fuel i).result = Except.error m →
      ∃ e, call (i + ((chat_loop call wrap fuel i).calls - 1)) = Except.error e ∧
        m = wrap e := by
  intro fuel
  induction fuel with
  | zero => intro i m hinv h1; omega
  | succ fuel ih =>
    intro i m hinv h1
    simp only [chat_loop]
    cases hc : call i with
    | ok v => intro hr; simp at hr
    | error e =>
      by_cases hb : (i == MAX_RETRIES - 1 || !is_retryable_error e) = true
      · simp only [hb, if_true]
        intro hr
        simp only [Except.error.injEq] at hr
        exact ⟨e, by simpa using hc, hr.symm⟩
      · simp only [hb, if_false, Bool.false_eq_true]
        intro hr
        have hne : ¬(i = MAX_RETRIES - 1) := by
          intro hcontra
          simp [hcontra] at hb
        have hfuel : 1 ≤ fuel := by
          simp only [MAX_RETRIES] at hinv hne
          omega
        have hinv' : (i + 1) + fuel = MAX_RETRIES := by omega
        have hpos := chat_loop_calls_pos call wrap fuel (i + 1) hfuel
        rcases ih (i + 1) m hinv' hfuel (by simpa using hr) with ⟨e2, he2, hm⟩
        refine ⟨e2, ?_, hm⟩
        simp only [Nat.add_sub_cancel]
        rw [show i + (chat_loop call wrap fuel (i + 1)).calls =
          (i + 1) + ((chat_loop call wrap fuel (i + 1)).calls - 1) by omega]
        exact he2

theorem chat_loop_nonretryable {α : Type} (call : Nat → Except String α)
    (wrap : String → String) (fuel i : Nat) (e : String) (h1 : 1 ≤ fuel)
    (hc : call i = Except.error e) (hr : is_retryable_error e = false) :
    chat_loop call wrap fuel i = ⟨Except.error (wrap e), [], 1⟩ := by
  match fuel with
  | 0 => omega
  | fuel + 1 =>
    simp [chat_loop, hc, hr]

theorem resp_loop_calls_pos {α : Type} (call : Nat → Except String α)
    (fuel i : Nat) (h : 1 ≤ fuel) : 1 ≤ (resp_loop call fuel i).calls := by
  match fuel with
  | 0 => omega
  | fuel + 1 =>
    simp only [resp_loop]
    cases hc : call i with
    | ok v => simp
    | error e =>
      by_cases hb : (is_retryable_error e && decide (i < MAX_RETRIES - 1)) = true
      · simp [hb]
      · simp [hb]

theorem resp_loop_calls_le {α : Type} (call : Nat → Except String α) :
    ∀ fuel i, (resp_loop call fuel i).calls ≤ fuel := by
  intro fuel
  induction fuel with
  | zero => intro i; simp [resp_loop]
  | succ fuel ih =>
    intro i
    simp only [resp_loop]
    cases hc : call i with
    | ok v => simp
    | error e =>
      by_cases hb : (is_retryable_error e && decide (i < MAX_RETRIES - 1)) = true
      · simp only [hb, if_true]
        have := ih (i + 1)
        omega
      · simp [hb]

theorem resp_loop_error_wrap {α : Type} (call : Nat → Except String α) :
    ∀ fuel i m, i + fuel = MAX_RETRIES → 1 ≤ fuel →
      (resp_loop call fuel i).result = Except.error m →
      ∃ e, call (i + ((resp_loop call fuel i).calls - 1)) = Except.error e ∧
        m = resp_wrap e := by
  intro fuel
  induction fuel with
  | zero => intro i m hinv h1; omega
  | succ fuel ih =>
    intro i m hinv h1
    simp only [resp_loop]
    cases hc : call i with
    | ok v => intro hr; simp at hr
    | error e =>
      by_cases hb : (is_retryable_error e && decide (i < MAX_RETRIES - 1)) = true
      · simp only [hb, if_true]
        intro hr
        have hlt : i < MAX_RETRIES - 1 := by
          have := (Bool.and_eq_true _ _).mp hb
          simpa using this.2
        have hfuel : 1 ≤ fuel := by
          simp only [MAX_RETRIES] at hinv hlt
          omega
        have hinv' : (i + 1) + fuel = MAX_RETRIES := by omega
        have hpos := resp_loop_calls_pos call fuel (i + 1) hfuel
        rcases ih (i + 1) m hinv' hfuel (by simpa using hr) with ⟨e2, he2, hm⟩
        refine ⟨e2, ?_, hm⟩
        simp only [Nat.add_sub_cancel]
        rw [show i + (resp_loop call fuel (i + 1)).calls =
          (i + 1) + ((resp_loop call fuel (i + 1)).calls - 1) by omega]
        exact he2
      · simp only [hb, if_false, Bool.false_eq_true]
        intro hr
        simp only [Except.error.injEq] at hr
        exact ⟨e, by simpa using hc, hr.symm⟩

theorem resp_loop_retried_retryable {α : Type} (call : Nat → Except String α) :
    ∀ fuel i j, j + 1 < (resp_loop call fuel i).calls →
      ∃ e, call (i + j) = Except.error e ∧ is_retryable_error e = true := by
  intro fuel
  induction fuel with
  | zero => intro i j hj; simp [resp_loop] at hj
  | succ fuel ih =>
    intro i j hj
    simp only [resp_loop] at hj
    cases hc : call i with
    | ok v => rw [hc] at hj; simp at hj
    | error e =>
      rw [hc] at hj
      by_cases hb : (is_retryable_error e && decide (i < MAX_RETRIES - 1)) = true
      · simp only [hb, if_true] at hj
        have hretry : is_retryable_error e = true := ((Bool.and_eq_true _ _).mp hb).1
        match j with
        | 0 => exact ⟨e, by simpa using hc, hretry⟩
        | j + 1 =>
          have := ih (i + 1) j (by simpa using Nat.lt_of_succ_lt_succ hj)
          rcases this with ⟨e2, he2, hr2⟩
          exact ⟨e2, by rw [show i + (j + 1) = (i + 1) + j by omega]; exact he2, hr2⟩
      · simp [hb] at hj

/-! ### Claim theorems for the retry policy -/

/-- C1: for every chat-completions `generate_content` execution, a failing
attempt is retried only when the lowercased error text contains one of the
retryable keywords; there are at most 4 transport calls; the sleep between
attempts `j` and `j+1` is `RETRY_DELAYS[j]` (so 1s, 3s, 5s between the up to
4 attempts, from the table `[1, 3, 5, 8]`); a non-retryable error ends the
call after the current attempt with no further sleep; and both exhaustion
and a non-retryable error raise an error wrapping the last underlying
exception whose text names the attempt count (`after 4 attempts`). -/
theorem C1_chat_retry_policy {α : Type} (resolve : String → String)
    (friendly model_name : String) (resp_call call : Nat → Except String α) :
    (resolve model_name ≠ O3_PRO_MODEL →
      generate_content_dispatch resolve friendly model_name resp_call call =
        (Protocol.chat, chat_generate friendly model_name call)) ∧
    1 ≤ (chat_generate friendly model_name call).calls ∧
    (chat_generate friendly model_name call).calls ≤ 4 ∧
    (chat_generate friendly model_name call).sleeps =
      (List.range ((chat_generate friendly model_name call).calls - 1)).map
        (fun j => RETRY_DELAYS.getD j 0) ∧
    (∀ j, j + 1 < (chat_generate friendly model_name call).calls →
      ∃ e, call j = Except.error e ∧ is_retryable_error e = true) ∧
    (∀ e, call 0 = Except.error e → is_retryable_error e = false →
      chat_generate friendly model_name call =
        ⟨Except.error (chat_wrap friendly model_name e), [], 1⟩) ∧
    (∀ m, (chat_generate friendly model_name call).result = Except.error m →
      ∃ e, call ((chat_generate friendly model_name call).calls - 1) = Except.error e ∧
        m = chat_wrap friendly model_name e) ∧
    (∀ e, chat_wrap friendly model_name e =
      friendly ++ " API error for model " ++ model_name ++ " after 4 attempts: " ++ e) := by
  refine ⟨?_, ?_, ?_, ?_, ?_, ?_, ?_, ?_⟩
  · intro h
    simp [generate_content_dispatch, h]
  · exact chat_loop_calls_pos call _ MAX_RETRIES 0 (by norm_num [MAX_RETRIES])
  · exact chat_loop_calls_le call _ MAX_RETRIES 0
  · have := chat_loop_sleeps call (chat_wrap friendly model_name) MAX_RETRIES 0 rfl
      (by norm_num [MAX_RETRIES])
    simpa [chat_generate] using this
  · intro j hj
    have := chat_loop_retried_retryable call (chat_wrap friendly model_name) MAX_RETRIES 0 j hj
    simpa using this
  · intro e hc hr
    exact chat_loop_nonretryable call _ MAX_RETRIES 0 e (by norm_num [MAX_RETRIES]) hc hr
  · intro m hm
    have := chat_loop_error_wrap call (chat_wrap friendly model_name) MAX_RETRIES 0 m rfl
      (by norm_num [MAX_RETRIES]) hm
    simpa using this
  · intro e
    unfold chat_wrap
    rw [String.append_assoc (friendly ++ " API error for model " ++ model_name)
      " after " (toString MAX_RETRIES)]
    rw [show (" after " ++ toString MAX_RETRIES) = " after 4" from rfl]
    rw [String.append_assoc (friendly ++ " API error for model " ++ model_name)
      " after 4" " attempts: "]
    rfl

theorem C1_witness :
    chat_generate "OpenAI Compatible" "gpt-x"
        (fun _ => (Except.error "invalid api key" : Except String Nat)) =
      ⟨Except.error (chat_wrap "OpenAI Compatible" "gpt-x" "invalid api key"), [], 1⟩ :=
  (C1_chat_retry_policy (fun s => s) "OpenAI Compatible" "gpt-x"
      (fun _ => Except.error "x")
      (fun _ => Except.error "invalid api key")).2.2.2.2.2.1
    "invalid api key" rfl (by decide)

theorem convert_input_messages_roles (msgs : List ChatMessage) (r : RespInputMessage)
    (hr : r ∈ convert_input_messages msgs) :
    (r.role = "user" ∧ r.part_type = "input_text") ∨
    (r.role = "assistant" ∧ r.part_type = "output_text") := by
  induction msgs with
  | nil => simp [convert_input_messages] at hr
  | cons m rest ih =>
    simp only [convert_input_messages] at hr
    by_cases h1 : (m.role == "system") = true
    · simp only [h1, if_true, List.mem_cons] at hr
      rcases hr with hr | hr
      · subst hr; left; exact ⟨rfl, rfl⟩
      · exact ih hr
    · simp only [h1, if_false, Bool.false_eq_true] at hr
      by_cases h2 : (m.role == "user") = true
      · simp only [h2, if_true, List.mem_cons] at hr
        rcases hr with hr | hr
        · subst hr; left; exact ⟨rfl, rfl⟩
        · exact ih hr
      · simp only [h2, if_false, Bool.false_eq_true] at hr
        by_cases h3 : (m.role == "assistant") = true
        · simp only [h3, if_true, List.mem_cons] at hr
          rcases hr with hr | hr
          · subst hr; right; exact ⟨rfl, rfl⟩
          · exact ih hr
        · simp only [h3, if_false, Bool.false_eq_true] at hr
          exact ih hr

/-- C7: a `generate_content` call whose resolved model name is
`o3-pro-2025-06-10` is routed to the responses protocol, whatever the chat
transport would do (the chat protocol is never attempted); the responses
loop makes at most 4 transport calls and, on failure, raises the
responses-endpoint error wrapping the last underlying exception after its
own retry budget (retrying only retryable errors); and the request shape
inlines system messages as user messages prefixed `System: `, with the
distinct part types `input_text` / `output_text` for input and model
output. -/
theorem C7_o3_pro_responses_routing {α : Type} (resolve : String → String)
    (friendly model_name : String) (resp_call : Nat → Except String α)
    (h : resolve model_name = O3_PRO_MODEL) :
    (∀ chat_call, generate_content_dispatch resolve friendly model_name resp_call chat_call =
      (Protocol.responses, resp_generate resp_call)) ∧
    (resp_generate resp_call).calls ≤ 4 ∧
    (∀ m, (resp_generate resp_call).result = Except.error m →
      ∃ e, resp_call ((resp_generate resp_call).calls - 1) = Except.error e ∧
        m = resp_wrap e) ∧
    (∀ j, j + 1 < (resp_generate resp_call).calls →
      ∃ e, resp_call j = Except.error e ∧ is_retryable_error e = true) ∧
    (∀ content rest, convert_input_messages (⟨"system", content⟩ :: rest) =
      ⟨"user", "input_text", "System: " ++ content⟩ :: convert_input_messages rest) ∧
    (∀ msgs r, r ∈ convert_input_messages msgs →
      (r.role = "user" ∧ r.part_type = "input_text") ∨
      (r.role = "assistant" ∧ r.part_type = "output_text")) ∧
    (∀ e, resp_wrap e = "o3-pro responses endpoint error after 4 attempts: " ++ e) := by
  refine ⟨?_, ?_, ?_, ?_, ?_, ?_, ?_⟩
  · intro chat_call
    simp [generate_content_dispatch, h]
  · exact resp_loop_calls_le resp_call MAX_RETRIES 0
  · intro m hm
    have := resp_loop_error_wrap resp_call MAX_RETRIES 0 m rfl (by norm_num [MAX_RETRIES]) hm
    simpa using this
  · intro j hj
    have := resp_loop_retried_retryable resp_call MAX_RETRIES 0 j hj
    simpa using this
  · intro content rest
    simp [convert_input_messages]
  · exact fun msgs r hr => convert_input_messages_roles msgs r hr
  · intro e
    rfl

theorem C7_witness :
    generate_content_dispatch (fun s => s) "OpenAI" O3_PRO_MODEL
        (fun _ => (Except.error "x" : Except String Nat)) (fun _ => Except.ok 0) =
      (Protocol.responses, resp_generate (fun _ => (Except.error "x" : Except String Nat))) :=
  (C7_o3_pro_responses_routing (fun s => s) "OpenAI" O3_PRO_MODEL
      (fun _ => Except.error "x") rfl).1 (fun _ => Except.ok 0)

/-! ### Claim theorems for parameter validation -/

/-- C2 counterexample: for the official OpenAI provider, `validate_parameters`
on model `o3` with temperature 2 (≠ 1.0) does NOT raise: the inherited
`OpenAICompatibleProvider.validate_parameters` catches the constraint
violation and only logs a warning. -/
theorem C2_counterexample :
    (openai_validate_parameters "o3" 2).raised = none ∧
    (openai_validate_parameters "o3" 2).warning.isSome = true := by
  constructor
  · rfl
  · rfl

/-- C2 (amended): `validate_parameters` obtains the capability descriptor
and checks the temperature — exact match for a Fixed constraint, inclusive
range for a Range constraint, with the failure message naming the offending
value — but for every OpenAI-compatible provider, the official OpenAI
provider included, a validation failure is downgraded to a warning:
`validate_parameters` never raises. In particular `o3` with a temperature
other than 1.0 yields a warning and no error, and with temperature 1.0 it
passes silently. -/
theorem C2_validation_downgraded_to_warning (model_name : String) (t : Rat) :
    (openai_validate_parameters model_name t).raised = none ∧
    (∀ caps v, caps.temperature_constraint = TemperatureConstraint.fixed v →
      (base_validate_parameters caps t = Except.ok () ↔ t = v)) ∧
    (∀ caps low high d, caps.temperature_constraint = TemperatureConstraint.range low high d →
      (base_validate_parameters caps t = Except.ok () ↔ low ≤ t ∧ t ≤ high)) ∧
    (t ≠ 1 → (openai_validate_parameters "o3" t).warning.isSome = true) ∧
    openai_validate_parameters "o3" 1 = ⟨none, none⟩ := by
  refine ⟨?_, ?_, ?_, ?_, ?_⟩
  · cases hg : openai_get_capabilities model_name with
    | error e => simp [openai_validate_parameters, compat_validate_parameters, hg]
    | ok caps =>
      cases hb : base_validate_parameters caps t with
      | error e => simp [openai_validate_parameters, compat_validate_parameters, hg, hb]
      | ok u => simp [openai_validate_parameters, compat_validate_parameters, hg, hb]
  · intro caps v hv
    unfold base_validate_parameters
    rw [hv]
    by_cases h : (t == v) = true
    · simp [h, beq_iff_eq.mp h]
    · have hne : t ≠ v := fun hc => h (beq_iff_eq.mpr hc)
      simp [h, hne]
  · intro caps low high d hv
    unfold base_validate_parameters
    rw [hv]
    by_cases h : low ≤ t ∧ t ≤ high
    · simp [h]
    · simp [h]
  · intro ht
    have hne : (t == (1 : Rat)) = false := beq_eq_false_iff_ne.mpr ht
    have hg : openai_get_capabilities "o3" = Except.ok
      { provider := ProviderType.openai
        model_name := "o3"
        friendly_name := "OpenAI"
        context_window := 200000
        supports_extended_thinking := false
        supports_system_prompts := true
        supports_streaming := true
        supports_function_calling := true
        temperature_constraint := TemperatureConstraint.fixed 1 } := rfl
    simp [openai_validate_parameters, compat_validate_parameters, hg,
      base_validate_parameters, hne]
  · rfl

theorem C2_witness :
    (openai_validate_parameters "o3" 0).warning.isSome = true :=
  (C2_validation_downgraded_to_warning "o3" 0).2.2.2.1 (by norm_num)

/-! ### Claim theorems for timeouts (C3) -/

/-- C3: timeout resolution selects exactly one of three tiers — no base URL
gives connect 30 and read/write/pool 600; a local base URL gives connect 60
and read/write/pool 1800; a non-local custom base URL gives connect 45 and
read/write/pool 900 — and an explicit per-field override (kwarg, or the
`CUSTOM_*_TIMEOUT` environment value when no kwarg is given) replaces the
tier default for that field regardless of tier. -/
theorem C3_timeout_tiers (u : String) (kc kr kw kp ec er ew ep : Option Rat) (c : Rat) :
    configure_timeouts none none none none none none none none none =
      ⟨30, 600, 600, 600⟩ ∧
    (is_localhost_url (some u) = true →
      configure_timeouts (some u) none none none none none none none none =
        ⟨60, 1800, 1800, 1800⟩) ∧
    (is_localhost_url (some u) = false →
      configure_timeouts (some u) none none none none none none none none =
        ⟨45, 900, 900, 900⟩) ∧
    (∀ b, (configure_timeouts b (some c) kr kw kp ec er ew ep).connect = c) ∧
    (∀ b, (configure_timeouts b kc (some c) kw kp ec er ew ep).read = c) ∧
    (∀ b, (configure_timeouts b kc kr (some c) kp ec er ew ep).write = c) ∧
    (∀ b, (configure_timeouts b kc kr kw (some c) ec er ew ep).pool = c) ∧
    (∀ b, (configure_timeouts b none kr kw kp (some c) er ew ep).connect = c) ∧
    (∀ b, (configure_timeouts b kc none kw kp ec (some c) ew ep).read = c) ∧
    (∀ b, (configure_timeouts b kc kr none kp ec er (some c) ep).write = c) ∧
    (∀ b, (configure_timeouts b kc kr kw none ec er ew (some c)).pool = c) := by
  refine ⟨rfl, ?_, ?_, ?_, ?_, ?_, ?_, ?_, ?_, ?_, ?_⟩
  · intro h
    simp [configure_timeouts, h]
  · intro h
    simp [configure_timeouts, h]
  all_goals
    intro b
    cases b <;> simp [configure_timeouts]

theorem C3_witness :
    configure_timeouts (some "http://localhost:11434") none none none none
        none none none none = ⟨60, 1800, 1800, 1800⟩ :=
  (C3_timeout_tiers "http://localhost:11434" none none none none none none none none 0).2.1
    (by rfl)

/-! ### Claim theorems for base-URL validation (C4) -/

/-- C4: `validate_base_url` raises exactly when the scheme is not http/https,
the hostname is absent, or an explicit port does not denote an integer in
1–65535 (equivalently: it returns without error iff the scheme is http or
https, a hostname is present, and the port is absent or in range); and
Provider construction runs exactly this validation when a base URL is
configured, so every invalid URL fails construction with that error. -/
theorem C4_validate_base_url_iff (url : String) :
    (validate_base_url url = Except.ok () ↔
      ((url_scheme url = "http" ∨ url_scheme url = "https") ∧
        (url_hostname url).isSome = true ∧ url_port_acceptable url = true)) ∧
    provider_init_validation (some url) = validate_base_url url ∧
    (∀ e, validate_base_url url = Except.error e →
      provider_init_validation (some url) = Except.error e) := by
  refine ⟨?_, rfl, fun e he => he⟩
  cases hu : urlsplit url with
  | error e =>
    simp [validate_base_url, url_scheme, url_hostname, url_port_acceptable, hu]
  | ok p =>
    simp only [validate_base_url, url_scheme, url_hostname, url_port_acceptable, hu]
    by_cases hs : p.scheme = "http" ∨ p.scheme = "https"
    · have hbs : (p.scheme == "http" || p.scheme == "https") = true := by
        rcases hs with h | h <;> simp [h]
      rw [hbs]
      cases hh : pyHostname p with
      | none => simp [hs]
      | some hname =>
        cases hp : pyPort p with
        | error e => simp [hs]
        | ok op =>
          cases op with
          | none => simp [hs]
          | some n =>
            by_cases h1 : n < 1
            · simp [h1, hs]
            · by_cases h2 : n > 65535
              · simp [h1, h2, hs]
              · simp [h1, h2, hs]
                omega
    · have hbs : (p.scheme == "http" || p.scheme == "https") = false := by
        push_neg at hs
        simp [hs.1, hs.2]
      rw [hbs]
      simp [hs]

theorem C4_witness :
    provider_init_validation (some "ftp://h") =
      Except.error "Invalid URL scheme: ftp. Only http/https allowed." :=
  (C4_validate_base_url_iff "ftp://h").2.2
    "Invalid URL scheme: ftp. Only http/https allowed." (by rfl)

/-! ### Claim theorems for model-name checking (C5) -/

/-- C5 counterexample: with the allow-list configured to contain only
`o4-mini`, a `generate_content` call for `o3` still passes the model-name
check (no rejection before the network attempt): the official OpenAI
provider's `validate_model_name` consults only the static support table and
ignores the parsed allow-list. -/
theorem C5_counterexample :
    parse_allowed_models "o4-mini" = some ["o4-mini"] ∧
    generate_content_model_check openai_validate_model_name
      (parse_allowed_models "o4-mini") "o3" = Except.ok () := by
  constructor
  · rfl
  · rfl

/-- C5 (amended): the model-name check at the top of `generate_content`
rejects, before any network attempt, exactly the model names outside the
provider's static support table; for the official OpenAI provider the
configured allow-list is parsed and stored at construction but not consulted
by `validate_model_name`, so the check's outcome is the same for every
allow-list value; when no allow-list is configured
(`parse_allowed_models "" = none`), all support-table models are permitted. -/
theorem C5_model_check_support_table_only (A : Option (List String))
    (model_name : String) :
    (generate_content_model_check openai_validate_model_name A model_name =
        Except.ok () ↔ (model_name = "o3" ∨ model_name = "o4-mini")) ∧
    parse_allowed_models "" = none ∧
    (∀ A2, generate_content_model_check openai_validate_model_name A model_name =
        Except.ok () ↔
      generate_content_model_check openai_validate_model_name A2 model_name =
        Except.ok ()) := by
  have hmain : ∀ B, generate_content_model_check openai_validate_model_name B model_name =
      Except.ok () ↔ (model_name = "o3" ∨ model_name = "o4-mini") := by
    intro B
    unfold generate_content_model_check openai_validate_model_name
    have hmap : OPENAI_SUPPORTED_MODELS.map Prod.fst = ["o3", "o4-mini"] := rfl
    rw [hmap]
    by_cases h : model_name = "o3" ∨ model_name = "o4-mini"
    · have hc : ((["o3", "o4-mini"] : List String).contains model_name) = true := by
        rcases h with h | h <;> subst h <;> rfl
      rw [hc]
      simpa using h
    · have hc : ((["o3", "o4-mini"] : List String).contains model_name) = false := by
        push_neg at h
        simp [h.1, h.2]
      rw [hc]
      simpa using h
  exact ⟨hmain A, rfl, fun A2 => (hmain A).trans (hmain A2).symm⟩

theorem C5_witness :
    generate_content_model_check openai_validate_model_name
      (parse_allowed_models "o4-mini") "o4-mini" = Except.ok () :=
  (C5_model_check_support_table_only (parse_allowed_models "o4-mini") "o4-mini").1.mpr
    (Or.inr rfl)

/-! ### Claim theorems for token counting (C6) -/

/-- C6 counterexample: with no remote tier and a failing tokenizer tier,
`count_tokens` on the 3-character text `abc` returns 0 — it does not raise,
but the returned integer is `len(text) // 4 = 0`, which is not positive. -/
theorem C6_counterexample :
    count_tokens none (fun _ _ => Except.error "tiktoken not available")
        "abc" "mystery-model" = Except.ok 0 ∧
    ¬ (0 : Nat) > 0 := by
  exact ⟨rfl, by omega⟩

/-- C6 (amended): `count_tokens` never raises — every tier failure falls
through silently — and when the remote tier is absent or fails and the
tokenizer tier fails, it returns exactly `len(text) // 4`, a non-negative
integer that is positive whenever the text has at least 4 characters. -/
theorem C6_count_tokens_never_raises
    (remote : Option (String → String → Except String Nat))
    (tik : String → String → Except String Nat) (text model_name : String) :
    (∃ n, count_tokens remote tik text model_name = Except.ok n) ∧
    (∀ e, tik text model_name = Except.error e →
      count_tokens none tik text model_name = Except.ok (text.length / 4)) ∧
    (∀ f e e2, f text model_name = Except.error e →
      tik text model_name = Except.error e2 →
      count_tokens (some f) tik text model_name = Except.ok (text.length / 4)) ∧
    (4 ≤ text.length → 0 < text.length / 4) := by
  refine ⟨?_, ?_, ?_, ?_⟩
  · cases remote with
    | none =>
      cases ht : tik text model_name with
      | ok n => exact ⟨n, by simp [count_tokens, ht]⟩
      | error e => exact ⟨text.length / 4, by simp [count_tokens, ht]⟩
    | some f =>
      cases hf : f text model_name with
      | ok n => exact ⟨n, by simp [count_tokens, hf]⟩
      | error e =>
        cases ht : tik text model_name with
        | ok n => exact ⟨n, by simp [count_tokens, hf, ht]⟩
        | error e2 => exact ⟨text.length / 4, by simp [count_tokens, hf, ht]⟩
  · intro e he
    simp [count_tokens, he]
  · intro f e e2 hf ht
    simp [count_tokens, hf, ht]
  · intro h
    exact Nat.div_pos h (by omega)

theorem C6_witness :
    count_tokens none (fun _ _ => Except.error "no tokenizer")
      "abcdefgh" "mystery-model" = Except.ok 2 :=
  ((C6_count_tokens_never_raises none (fun _ _ => Except.error "no tokenizer")
      "abcdefgh" "mystery-model").2.1 "no tokenizer" rfl).trans rfl

/-! ### Claim theorems for locality classification (C8) -/

/-- C8 counterexample: the hostname `169.254.0.5` (IPv4 link-local) is not
one of the three literals, not a Docker-internal name, and its address is
neither in an RFC1918 block nor loopback — yet the locality predicate
classifies `http://169.254.0.5` as local, because Python's `is_private`
covers more than RFC1918. -/
theorem C8_counterexample :
    is_localhost_url (some "http://169.254.0.5") = true ∧
    ip_address "169.254.0.5" = some (IpAddr.v4 2851995653) ∧
    rfc1918_v4 2851995653 = false ∧
    isLoopbackV4 2851995653 = false ∧
    containsSub "169.254.0.5" "docker.internal" = false ∧
    "169.254.0.5" ≠ "localhost" ∧ "169.254.0.5" ≠ "127.0.0.1" ∧
    "169.254.0.5" ≠ "::1" := by
  refine ⟨rfl, rfl, rfl, rfl, rfl, ?_, ?_, ?_⟩ <;> decide

/-- C8 (amended): the locality predicate returns true for the hostnames
`localhost`, `127.0.0.1`, `::1` (checked on the spec's URL examples), for
hostnames containing `docker.internal`, and for IP-literal hostnames that
Python's `ipaddress` module classifies private or loopback — a strict
superset of the RFC1918-or-loopback IPv4 literals, which are all classified
local; it returns false for a provider with no base URL and for every other
hostname, including non-IP hostnames such as `api.example.com`. -/
theorem C8_locality_classification (h : String) :
    is_localhost_url none = false ∧
    is_localhost_url (some "http://127.0.0.1:8080") = true ∧
    is_localhost_url (some "http://localhost") = true ∧
    is_localhost_url (some "http://host.docker.internal") = true ∧
    is_localhost_url (some "http://10.1.2.3") = true ∧
    is_localhost_url (some "https://api.example.com") = false ∧
    (containsSub h "docker.internal" = true → is_localhost_hostname (some h) = true) ∧
    (∀ ip, ip_address h = some ip → ipPrivateOrLoopback ip = true →
      is_localhost_hostname (some h) = true) ∧
    (∀ n, ip_address h = some (IpAddr.v4 n) →
      (rfc1918_v4 n || isLoopbackV4 n) = true →
      is_localhost_hostname (some h) = true) ∧
    (h ≠ "localhost" → h ≠ "127.0.0.1" → h ≠ "::1" →
      containsSub h "docker.internal" = false →
      containsSub h "host.docker.internal" = false →
      (∀ ip, ip_address h = some ip → ipPrivateOrLoopback ip = false) →
      is_localhost_hostname (some h) = false) := by
  have hpriv_imp : ∀ ip, ip_address h = some ip → ipPrivateOrLoopback ip = true →
      is_localhost_hostname (some h) = true := by
    intro ip hip hp
    unfold is_localhost_hostname
    by_cases hl : (h == "localhost" || h == "127.0.0.1" || h == "::1") = true
    · simp [hl]
    · by_cases hd : (containsSub h "docker.internal" ||
          containsSub h "host.docker.internal") = true
      · simp [hl, hd]
      · simp [hl, hd, hip, hp]
  refine ⟨rfl, rfl, rfl, rfl, rfl, rfl, ?_, hpriv_imp, ?_, ?_⟩
  · intro hd
    unfold is_localhost_hostname
    by_cases hl : (h == "localhost" || h == "127.0.0.1" || h == "::1") = true
    · simp [hl]
    · simp [hl, hd]
  · intro n hv4 hr
    apply hpriv_imp (IpAddr.v4 n) hv4
    have hcases := Bool.or_eq_true_iff.mp hr
    simp only [ipPrivateOrLoopback, rfc1918_v4, isPrivateV4, isLoopbackV4] at hcases ⊢
    rcases hcases with hx | hx
    · rcases Bool.or_eq_true_iff.mp hx with hy | hy
      · rcases Bool.or_eq_true_iff.mp hy with hz | hz
        · have hz2 : n / 2 ^ 24 = 10 := by simpa using hz
          norm_num at hz2
          simp [hz2]
        · have hz2 : n / 2 ^ 20 = 2753 := by simpa using hz
          norm_num at hz2
          simp [hz2]
      · have hz2 : n / 2 ^ 16 = 49320 := by simpa using hy
        norm_num at hz2
        simp [hz2]
    · have hz2 : n / 2 ^ 24 = 127 := by simpa using hx
      norm_num at hz2
      simp [hz2]
  · intro h1 h2 h3 hd1 hd2 hip
    have hl : (h == "localhost" || h == "127.0.0.1" || h == "::1") = false := by
      simp [h1, h2, h3]
    simp only [is_localhost_hostname]
    rw [hl]
    simp only [Bool.false_eq_true, if_false, hd1, hd2, Bool.or_self]
    cases hia : ip_address h with
    | none => simp
    | some ip => simp [hip ip hia]

theorem C8_witness :
    is_localhost_hostname (some "svc.docker.internal") = true ∧
    is_localhost_hostname (some "api.example.com") = false := by
  constructor
  · exact (C8_locality_classification "svc.docker.internal").2.2.2.2.2.2.1 (by decide)
  · apply (C8_locality_classification "api.example.com").2.2.2.2.2.2.2.2.2
    · decide
    · decide
    · decide
    · decide
    · decide
    · intro ip hip
      rw [show ip_address "api.example.com" = (none : Option IpAddr) from rfl] at hip
      cases hip

end ZenMCP
